import Mathlib

/-!
Shallow embedding of `prediction/src/algorithms/segment/src/models/unet_3d_model.py`.

The file builds a 3D U-Net Keras model. The embedding tracks the symbolic
shape of every tensor in the construction graph (batch dimension left
implicit, spatial dimensions and channel count explicit) together with the
filter count passed to every `Conv3D` call, and models the two failure
modes visible in the source: the `ImportError` raised by `get_upconv` when
`deconvolution=True` and `keras_contrib` is absent, and the `ValueError`
Keras raises inside `concatenate` when the spatial shapes disagree.
-/

/-- Spatial shape of a volumetric tensor: `(x_size, y_size, z_size)`. -/
abbrev Shape3 := ℕ × ℕ × ℕ

/-- An `input_shape` 4-tuple `(x_size, y_size, z_size, n_channels)`. -/
abbrev Shape4 := ℕ × ℕ × ℕ × ℕ

/-- A (5-D, batch-first) Keras tensor, tracked by its spatial shape and its
channel count; the batch dimension is `None` throughout and left implicit. -/
structure Tensor where
  spatial : Shape3
  channels : ℕ
deriving DecidableEq, Repr

/-- The Python exceptions that the source can raise during construction. -/
inductive PyError where
  | importError (msg : String)
  | valueError (msg : String)
  | notImplementedError (msg : String)
deriving DecidableEq, Repr

/-- `int(n / f)` for a natural `n` and a rational factor `f`: Python truncates
toward zero, which for the nonnegative quotients `base / downsize_filters_factor`
is the floor. -/
def trunc_div (n : ℕ) (f : ℚ) : ℕ := (Int.floor ((n : ℚ) / f)).toNat

/-- Shape action of `Conv3D(filters, kernel, ...)` as used by the source:
stride 1 with either kernel `(3,3,3)` and `padding=same` or kernel `(1,1,1)`
(default `valid` padding); both preserve the spatial shape and set the channel
count to `filters`. -/
def conv3d (filters : ℕ) (t : Tensor) : Tensor := ⟨t.spatial, filters⟩

/-- Shape action of `MaxPooling3D(pool_size=p)`: each spatial dimension is
divided by the pool factor (floor division). -/
def maxPooling3D (pool_size : Shape3) (t : Tensor) : Tensor :=
  ⟨(t.spatial.1 / pool_size.1, t.spatial.2.1 / pool_size.2.1,
    t.spatial.2.2 / pool_size.2.2), t.channels⟩

/-- The two layer objects `get_upconv` can return: the parameter-free
`UpSampling3D(size=pool_size)`, or the `keras_contrib` `Deconvolution3D`
with the keyword arguments the source passes to it. -/
inductive Layer where
  | upSampling3D (size : Shape3)
  | deconvolution3D (filters : ℕ) (kernel_size : Shape3) (output_shape : List (Option ℕ))
      (strides : Shape3) (input_shape : List (Option ℕ))
deriving DecidableEq, Repr

/-- `compute_level_output_shape(filters, depth, pool_size, image_shape)`:
for `depth != 0` divides the image shape elementwise by `pool_size * depth`
(true division followed by `int(...)` truncation, i.e. floor division on
naturals), else leaves it unchanged, and prepends the batch placeholder
`None` and the filter count. -/
def compute_level_output_shape (filters : ℕ) (depth : ℕ) (pool_size : Shape3)
    (image_shape : Shape3) : List (Option ℕ) :=
  if depth ≠ 0 then
    [none, some filters,
     some (image_shape.1 / (pool_size.1 * depth)),
     some (image_shape.2.1 / (pool_size.2.1 * depth)),
     some (image_shape.2.2 / (pool_size.2.2 * depth))]
  else
    [none, some filters, some image_shape.1, some image_shape.2.1, some image_shape.2.2]

/-- The exact message of the `ImportError` raised by `get_upconv` when the
`keras_contrib` import fails. -/
def kerasContribImportMsg : String :=
  "Install keras_contrib in order to use deconvolution. Otherwise set deconvolution=False."

/-- `get_upconv(depth, nb_filters, pool_size, image_shape, kernel_size, strides,
deconvolution)`. The ambient fact of whether `keras_contrib` can be imported is
passed as the extra flag `keras_contrib_available`. -/
def get_upconv (depth : ℕ) (nb_filters : ℕ) (pool_size : Shape3) (image_shape : Shape3)
    (kernel_size : Shape3) (strides : Shape3) (deconvolution : Bool)
    (keras_contrib_available : Bool) : Except PyError Layer :=
  if deconvolution then
    if keras_contrib_available then
      .ok (.deconvolution3D nb_filters kernel_size
        (compute_level_output_shape nb_filters depth pool_size image_shape)
        strides
        (compute_level_output_shape nb_filters (depth + 1) pool_size image_shape))
    else
      .error (.importError kerasContribImportMsg)
  else
    .ok (.upSampling3D pool_size)

/-- Shape action of applying a layer returned by `get_upconv` to a tensor:
`UpSampling3D(size)` multiplies each spatial dimension by the size factor;
`Deconvolution3D` produces the declared `output_shape` (entries 2..4 are the
spatial dimensions) with `filters` channels. -/
def applyLayer (l : Layer) (t : Tensor) : Tensor :=
  match l with
  | .upSampling3D size =>
      ⟨(t.spatial.1 * size.1, t.spatial.2.1 * size.2.1, t.spatial.2.2 * size.2.2), t.channels⟩
  | .deconvolution3D filters _ output_shape _ _ =>
      ⟨((output_shape.getD 2 none).getD 0, (output_shape.getD 3 none).getD 0,
        (output_shape.getD 4 none).getD 0), filters⟩

/-- `concatenate([a, b], axis=4)`: axis 4 of the 5-D batch tensor is the
channel axis, so channel counts add; Keras raises a `ValueError` during graph
construction when the remaining (spatial) dimensions disagree. -/
def concatenate (a b : Tensor) : Except PyError Tensor :=
  if a.spatial = b.spatial then
    .ok ⟨a.spatial, a.channels + b.channels⟩
  else
    .error (.valueError "concatenate requires matching spatial dimensions")

/-- The constructed model: its input and output tensors, the filter count of
every `Conv3D` call in construction order (eight encoder convolutions, six
decoder convolutions, then the final 1x1x1 convolution), the three skip
connections as pairs (encoder pre-pool spatial shape, decoder post-upsample
spatial shape) for levels 0, 1, 2, and the compiled learning rate. -/
structure KModel where
  inputShape : Tensor
  outputShape : Tensor
  convFilters : List ℕ
  skipPairs : List (Shape3 × Shape3)
  lr : ℚ
deriving DecidableEq, Repr

/-- `unet_model_3d(input_shape, downsize_filters_factor, pool_size, n_labels,
initial_learning_rate, deconvolution)`, line by line after the source. The
names `conv1a, conv1` model the Python rebinding `conv1 = ...; conv1 = ...`.
Note the source passes `input_shape[-3:]` as `image_shape`, i.e. the LAST
three entries `(y_size, z_size, n_channels)` of the 4-tuple. -/
def unet_model_3d (input_shape : Shape4) (downsize_filters_factor : ℚ)
    (pool_size : Shape3) (n_labels : ℕ) (initial_learning_rate : ℚ)
    (deconvolution : Bool) (keras_contrib_available : Bool) : Except PyError KModel :=
  let f := downsize_filters_factor
  let inputs : Tensor := ⟨(input_shape.1, input_shape.2.1, input_shape.2.2.1), input_shape.2.2.2⟩
  let conv1a := conv3d (trunc_div 32 f) inputs
  let conv1 := conv3d (trunc_div 64 f) conv1a
  let pool1 := maxPooling3D pool_size conv1
  let conv2a := conv3d (trunc_div 64 f) pool1
  let conv2 := conv3d (trunc_div 128 f) conv2a
  let pool2 := maxPooling3D pool_size conv2
  let conv3a := conv3d (trunc_div 128 f) pool2
  let conv3 := conv3d (trunc_div 256 f) conv3a
  let pool3 := maxPooling3D pool_size conv3
  let conv4a := conv3d (trunc_div 256 f) pool3
  let conv4 := conv3d (trunc_div 512 f) conv4a
  let image_shape : Shape3 := (input_shape.2.1, input_shape.2.2.1, input_shape.2.2.2)
  match get_upconv 2 (trunc_div 512 f) pool_size image_shape (2, 2, 2) (2, 2, 2)
      deconvolution keras_contrib_available with
  | .error e => .error e
  | .ok up5l =>
    let up5pre := applyLayer up5l conv4
    match concatenate up5pre conv3 with
    | .error e => .error e
    | .ok up5 =>
      let conv5a := conv3d (trunc_div 256 f) up5
      let conv5 := conv3d (trunc_div 256 f) conv5a
      match get_upconv 1 (trunc_div 256 f) pool_size image_shape (2, 2, 2) (2, 2, 2)
          deconvolution keras_contrib_available with
      | .error e => .error e
      | .ok up6l =>
        let up6pre := applyLayer up6l conv5
        match concatenate up6pre conv2 with
        | .error e => .error e
        | .ok up6 =>
          let conv6a := conv3d (trunc_div 128 f) up6
          let conv6 := conv3d (trunc_div 128 f) conv6a
          match get_upconv 0 (trunc_div 128 f) pool_size image_shape (2, 2, 2) (2, 2, 2)
              deconvolution keras_contrib_available with
          | .error e => .error e
          | .ok up7l =>
            let up7pre := applyLayer up7l conv6
            match concatenate up7pre conv1 with
            | .error e => .error e
            | .ok up7 =>
              let conv7a := conv3d (trunc_div 64 f) up7
              let conv7 := conv3d (trunc_div 64 f) conv7a
              let conv8 := conv3d n_labels conv7
              let act := conv8
              .ok { inputShape := inputs, outputShape := act,
                    convFilters := [conv1a.channels, conv1.channels, conv2a.channels,
                                    conv2.channels, conv3a.channels, conv3.channels,
                                    conv4a.channels, conv4.channels, conv5a.channels,
                                    conv5.channels, conv6a.channels, conv6.channels,
                                    conv7a.channels, conv7.channels, conv8.channels],
                    skipPairs := [(conv1.spatial, up7pre.spatial),
                                  (conv2.spatial, up6pre.spatial),
                                  (conv3.spatial, up5pre.spatial)],
                    lr := initial_learning_rate }

/-- Modelled from the spec: `DATA_SHAPE` is "a fixed input-shape constant from
an external preprocessing module" (`preprocess.lung_segmentation`), whose
definition is not among the sources; its concrete value is unspecified, so the
constructor below is parametrised by it. -/
def Simple3DModel.init (DATA_SHAPE : Shape4) (keras_contrib_available : Bool) :
    Except PyError KModel :=
  unet_model_3d DATA_SHAPE 1 (2, 2, 2) 1 (1 / 100) false keras_contrib_available

/-- `Simple3DModel._fit` raises `NotImplementedError` unconditionally. -/
def Simple3DModel._fit {α β : Type} (X : α) (y : β) : Except PyError Unit :=
  .error (.notImplementedError "Must implement \x27_fit()\x27")

/-- `Simple3DModel._predict` raises `NotImplementedError` unconditionally. -/
def Simple3DModel._predict {α : Type} (X : α) : Except PyError Unit :=
  .error (.notImplementedError "Must implement \x27_predict()\x27")

/-- Whether model construction raised an `ImportError`. -/
def isImportError : Except PyError KModel → Bool
  | .error (.importError _) => true
  | _ => false

/-- Whether model construction succeeded. -/
def builtOk : Except PyError KModel → Bool
  | .ok _ => true
  | .error _ => false

/-- The `Conv3D` filter counts of a construction result (empty on failure). -/
def convFiltersOf : Except PyError KModel → List ℕ
  | .ok m => m.convFilters
  | .error _ => []

/-- The two filter counts encoder level `k` (0-based) applies, read off the
construction-order filter list: positions `2k` and `2k+1`. -/
def encoder_level_filters (fs : List ℕ) (k : ℕ) : List ℕ :=
  [fs.getD (2 * k) 0, fs.getD (2 * k + 1) 0]

/-- The two filter counts decoder level `k` applies: decoder levels run
k = 2, 1, 0 at positions 8..13 of the construction-order filter list, so
level `k` sits at positions `12 - 2k` and `13 - 2k`. -/
def decoder_level_filters (fs : List ℕ) (k : ℕ) : List ℕ :=
  [fs.getD (12 - 2 * k) 0, fs.getD (13 - 2 * k) 0]

theorem trunc_div_one (n : ℕ) : trunc_div n 1 = n := by
  simp [trunc_div]

/-- With the default `pool_size = (2,2,2)` and `deconvolution = False`, the
builder succeeds on any input whose spatial dimensions are divisible by 8,
and this is the model it produces. -/
theorem unet_ok_of_div8 (x y z c : ℕ) (f : ℚ) (n_labels : ℕ) (lr : ℚ) (avail : Bool)
    (hx : 8 ∣ x) (hy : 8 ∣ y) (hz : 8 ∣ z) :
    unet_model_3d (x, y, z, c) f (2, 2, 2) n_labels lr false avail = .ok
      { inputShape := ⟨(x, y, z), c⟩,
        outputShape := ⟨(x, y, z), n_labels⟩,
        convFilters := [trunc_div 32 f, trunc_div 64 f, trunc_div 64 f, trunc_div 128 f,
                        trunc_div 128 f, trunc_div 256 f, trunc_div 256 f, trunc_div 512 f,
                        trunc_div 256 f, trunc_div 256 f, trunc_div 128 f, trunc_div 128 f,
                        trunc_div 64 f, trunc_div 64 f, n_labels],
        skipPairs := [((x, y, z), (x, y, z)),
                      ((x / 2, y / 2, z / 2), (x / 2, y / 2, z / 2)),
                      ((x / 2 / 2, y / 2 / 2, z / 2 / 2), (x / 2 / 2, y / 2 / 2, z / 2 / 2))],
        lr := lr } := by
  have hx1 : x / 2 / 2 / 2 * 2 = x / 2 / 2 := by omega
  have hx2 : x / 2 / 2 * 2 = x / 2 := by omega
  have hx3 : x / 2 * 2 = x := by omega
  have hy1 : y / 2 / 2 / 2 * 2 = y / 2 / 2 := by omega
  have hy2 : y / 2 / 2 * 2 = y / 2 := by omega
  have hy3 : y / 2 * 2 = y := by omega
  have hz1 : z / 2 / 2 / 2 * 2 = z / 2 / 2 := by omega
  have hz2 : z / 2 / 2 * 2 = z / 2 := by omega
  have hz3 : z / 2 * 2 = z := by omega
  simp [unet_model_3d, conv3d, maxPooling3D, applyLayer, get_upconv, concatenate,
        hx1, hx2, hx3, hy1, hy2, hy3, hz1, hz2, hz3]

/-- Inversion: the only error `concatenate` can produce is the spatial
mismatch `ValueError`. -/
theorem concatenate_error_inv (a b : Tensor) (e : PyError)
    (h : concatenate a b = .error e) :
    e = .valueError "concatenate requires matching spatial dimensions" := by
  unfold concatenate at h
  split at h
  · exact absurd h (by simp)
  · exact (Except.error.inj h).symm

/-- Inversion: whenever the builder succeeds, the recorded `Conv3D` filter
counts are exactly the construction-order list from the source, and the
compiled learning rate is the one passed in. -/
theorem unet_ok_fields (input_shape : Shape4) (f : ℚ) (pool_size : Shape3)
    (n_labels : ℕ) (lr : ℚ) (deconv avail : Bool) (m : KModel)
    (h : unet_model_3d input_shape f pool_size n_labels lr deconv avail = .ok m) :
    m.convFilters = [trunc_div 32 f, trunc_div 64 f, trunc_div 64 f, trunc_div 128 f,
                     trunc_div 128 f, trunc_div 256 f, trunc_div 256 f, trunc_div 512 f,
                     trunc_div 256 f, trunc_div 256 f, trunc_div 128 f, trunc_div 128 f,
                     trunc_div 64 f, trunc_div 64 f, n_labels] ∧
    m.lr = lr := by
  unfold unet_model_3d at h
  simp only [] at h
  repeat' split at h
  all_goals try (exact Except.noConfusion h)
  all_goals injection h with h2
  all_goals (subst h2; exact ⟨rfl, rfl⟩)

/-- Inversion: with `deconvolution = False` the only error the builder can
produce is the `ValueError` from a spatial mismatch inside `concatenate`;
in particular no `ImportError` is reachable. -/
theorem unet_false_error_is_valueError (input_shape : Shape4) (f : ℚ) (pool_size : Shape3)
    (n_labels : ℕ) (lr : ℚ) (avail : Bool) (e : PyError)
    (h : unet_model_3d input_shape f pool_size n_labels lr false avail = .error e) :
    e = .valueError "concatenate requires matching spatial dimensions" := by
  unfold unet_model_3d at h
  simp only [] at h
  split at h
  next e1 heq =>
    exact absurd heq (by simp [get_upconv])
  next up5l heq =>
    split at h
    next e2 heq2 =>
      injection h with h2
      exact h2 ▸ concatenate_error_inv _ _ _ heq2
    next up5 heq2 =>
      split at h
      next e3 heq3 => exact absurd heq3 (by simp [get_upconv])
      next up6l heq3 =>
        split at h
        next e4 heq4 =>
          injection h with h2
          exact h2 ▸ concatenate_error_inv _ _ _ heq4
        next up6 heq4 =>
          split at h
          next e5 heq5 => exact absurd heq5 (by simp [get_upconv])
          next up7l heq5 =>
            split at h
            next e6 heq6 =>
              injection h with h2
              exact h2 ▸ concatenate_error_inv _ _ _ heq6
            next up7 heq6 =>
              exact absurd h (by simp)

/-- C1: for every 4-tuple `input_shape` whose three spatial dimensions are
each divisible by 8, the model builder succeeds (default `pool_size` and
`deconvolution`), and the constructed model's output tensor — the final
1x1x1 convolution followed by sigmoid — has the same three spatial
dimensions as the input and exactly `n_labels` channels. -/
theorem C1_output_shape (x y z c n_labels : ℕ) (f lr : ℚ) (avail : Bool)
    (hx : 8 ∣ x) (hy : 8 ∣ y) (hz : 8 ∣ z) :
    ∃ m, unet_model_3d (x, y, z, c) f (2, 2, 2) n_labels lr false avail = .ok m ∧
      m.outputShape.spatial = (x, y, z) ∧ m.outputShape.channels = n_labels :=
  ⟨_, unet_ok_of_div8 x y z c f n_labels lr avail hx hy hz, rfl, rfl⟩

/-- Witness for C1 at `input_shape = (16, 24, 8, 1)`, `n_labels = 2`,
`downsize_filters_factor = 3/2`. -/
theorem C1_output_shape_witness :
    (8 ∣ 16) ∧ (8 ∣ 24) ∧ (8 ∣ 8) ∧
    ∃ m, unet_model_3d (16, 24, 8, 1) (3 / 2) (2, 2, 2) 2 (1 / 100) false true = .ok m ∧
      m.outputShape.spatial = (16, 24, 8) ∧ m.outputShape.channels = 2 :=
  ⟨⟨2, rfl⟩, ⟨3, rfl⟩, ⟨1, rfl⟩,
    C1_output_shape 16 24 8 1 2 (3 / 2) (1 / 100) true ⟨2, rfl⟩ ⟨3, rfl⟩ ⟨1, rfl⟩⟩

/-- C2: for every positive `downsize_filters_factor` `f`, whenever the builder
succeeds the eight encoder convolutions have filter counts `int(base / f)` for
the base counts 32, 64, 64, 128, 128, 256, 256, 512 in order, and every
convolution of the encoder and decoder has filter count `int(base / f)` for
its base count (the final 1x1x1 convolution uses `n_labels` directly). -/
theorem C2_conv_filter_counts (input_shape : Shape4) (f : ℚ) (pool_size : Shape3)
    (n_labels : ℕ) (lr : ℚ) (deconv avail : Bool) (m : KModel) (hf : 0 < f)
    (h : unet_model_3d input_shape f pool_size n_labels lr deconv avail = .ok m) :
    m.convFilters.take 8 =
      ([32, 64, 64, 128, 128, 256, 256, 512].map fun base => trunc_div base f) ∧
    m.convFilters =
      ([32, 64, 64, 128, 128, 256, 256, 512, 256, 256, 128, 128, 64, 64].map
        fun base => trunc_div base f) ++ [n_labels] := by
  rw [(unet_ok_fields _ _ _ _ _ _ _ _ h).1]
  exact ⟨rfl, rfl⟩

/-- Witness for C2 at `input_shape = (16, 16, 16, 1)`, `f = 1`, `n_labels = 3`. -/
theorem C2_conv_filter_counts_witness :
    (0 : ℚ) < 1 ∧
    ∃ m, unet_model_3d (16, 16, 16, 1) 1 (2, 2, 2) 3 (1 / 100) false true = .ok m ∧
      m.convFilters.take 8 =
        ([32, 64, 64, 128, 128, 256, 256, 512].map fun base => trunc_div base 1) ∧
      m.convFilters =
        ([32, 64, 64, 128, 128, 256, 256, 512, 256, 256, 128, 128, 64, 64].map
          fun base => trunc_div base 1) ++ [3] := by
  have h := unet_ok_of_div8 16 16 16 1 1 3 (1 / 100) true ⟨2, rfl⟩ ⟨2, rfl⟩ ⟨2, rfl⟩
  exact ⟨one_pos, _, h, C2_conv_filter_counts _ 1 _ 3 _ false true _ one_pos h⟩

/-- C3 fails on the code: at `input_shape = (8, 8, 8, 1)` with `f = 1` the
model builds, but decoder level 2 applies filter counts (256, 256), not the
encoder level 2 counts (128, 256) in reverse order (256, 128). -/
theorem C3_counterexample :
    builtOk (unet_model_3d (8, 8, 8, 1) 1 (2, 2, 2) 1 (1 / 100) false true) = true ∧
    decoder_level_filters
        (convFiltersOf (unet_model_3d (8, 8, 8, 1) 1 (2, 2, 2) 1 (1 / 100) false true)) 2 ≠
      (encoder_level_filters
        (convFiltersOf (unet_model_3d (8, 8, 8, 1) 1 (2, 2, 2) 1 (1 / 100) false true)) 2).reverse := by
  have h := unet_ok_of_div8 8 8 8 1 1 1 (1 / 100) true ⟨1, rfl⟩ ⟨1, rfl⟩ ⟨1, rfl⟩
  rw [h]
  refine ⟨rfl, ?_⟩
  simp [convFiltersOf, decoder_level_filters, encoder_level_filters, trunc_div_one]

/-- C3 amended: each decoder level applies two convolutions whose filter
counts BOTH equal the second (larger) of the corresponding encoder level's
two filter counts, rather than the encoder level's two counts in reverse
order. -/
theorem C3_amended_decoder_filters (input_shape : Shape4) (f : ℚ) (pool_size : Shape3)
    (n_labels : ℕ) (lr : ℚ) (deconv avail : Bool) (m : KModel)
    (h : unet_model_3d input_shape f pool_size n_labels lr deconv avail = .ok m)
    (k : ℕ) (hk : k < 3) :
    decoder_level_filters m.convFilters k =
      [(encoder_level_filters m.convFilters k).getD 1 0,
       (encoder_level_filters m.convFilters k).getD 1 0] := by
  rw [(unet_ok_fields _ _ _ _ _ _ _ _ h).1]
  interval_cases k <;> rfl

/-- Witness for the amended C3 at `input_shape = (8, 8, 8, 1)`, `f = 1/2`,
level `k = 1`. -/
theorem C3_amended_decoder_filters_witness :
    ∃ m, unet_model_3d (8, 8, 8, 1) (1 / 2) (2, 2, 2) 1 (1 / 100) false true = .ok m ∧
      (1 < 3 ∧ decoder_level_filters m.convFilters 1 =
        [(encoder_level_filters m.convFilters 1).getD 1 0,
         (encoder_level_filters m.convFilters 1).getD 1 0]) := by
  have h := unet_ok_of_div8 8 8 8 1 (1 / 2) 1 (1 / 100) true ⟨1, rfl⟩ ⟨1, rfl⟩ ⟨1, rfl⟩
  exact ⟨_, h, by norm_num, C3_amended_decoder_filters _ _ _ _ _ _ _ _ h 1 (by norm_num)⟩

/-- C4: `compute_level_output_shape` with `depth = 0` returns `(None, filters)`
followed by the image shape unchanged, and with `depth = d > 0` returns
`(None, filters)` followed by the image shape divided elementwise by
`pool_size * d`, truncated to integers. -/
theorem C4_compute_level_output_shape_spec (filters : ℕ) (pool_size image_shape : Shape3) :
    compute_level_output_shape filters 0 pool_size image_shape =
      [none, some filters, some image_shape.1, some image_shape.2.1, some image_shape.2.2] ∧
    ∀ depth : ℕ, 0 < depth →
      compute_level_output_shape filters depth pool_size image_shape =
        [none, some filters,
         some (image_shape.1 / (pool_size.1 * depth)),
         some (image_shape.2.1 / (pool_size.2.1 * depth)),
         some (image_shape.2.2 / (pool_size.2.2 * depth))] := by
  refine ⟨by simp [compute_level_output_shape], ?_⟩
  intro depth hd
  simp [compute_level_output_shape, Nat.pos_iff_ne_zero.mp hd]

/-- Witness for C4 at `filters = 4`, `pool_size = (2,2,2)`,
`image_shape = (16, 24, 32)`, depths 0 and 2. -/
theorem C4_compute_level_output_shape_witness :
    compute_level_output_shape 4 0 (2, 2, 2) (16, 24, 32) =
      [none, some 4, some 16, some 24, some 32] ∧
    (0 < 2 ∧ compute_level_output_shape 4 2 (2, 2, 2) (16, 24, 32) =
      [none, some 4, some 4, some 6, some 8]) := by
  have h := C4_compute_level_output_shape_spec 4 (2, 2, 2) (16, 24, 32)
  refine ⟨h.1, by norm_num, ?_⟩
  have h2 := h.2 2 (by norm_num)
  simpa using h2

/-- C5: every `get_upconv` call with `deconvolution = True` while
`keras_contrib` is not importable returns the `ImportError` whose message
names both remedies (install `keras_contrib`, or set `deconvolution=False`);
the error is produced directly at construction time by the pure call, with
no retry. -/
theorem C5_deconvolution_import_error (depth nb_filters : ℕ)
    (pool_size image_shape kernel_size strides : Shape3) :
    get_upconv depth nb_filters pool_size image_shape kernel_size strides true false =
      .error (.importError kerasContribImportMsg) ∧
    List.IsInfix ("Install keras_contrib".toList) kerasContribImportMsg.toList ∧
    List.IsInfix ("set deconvolution=False".toList) kerasContribImportMsg.toList :=
  ⟨rfl,
    ⟨"".toList,
     " in order to use deconvolution. Otherwise set deconvolution=False.".toList, rfl⟩,
    ⟨"Install keras_contrib in order to use deconvolution. Otherwise ".toList,
     ".".toList, rfl⟩⟩

/-- C6: calling `_fit` or `_predict` on a `Simple3DModel` raises
`NotImplementedError` unconditionally — there is no input for which either
returns normally. -/
theorem C6_hooks_not_implemented {α β : Type} (X : α) (y : β) :
    Simple3DModel._fit X y =
      .error (.notImplementedError "Must implement \x27_fit()\x27") ∧
    Simple3DModel._predict X =
      .error (.notImplementedError "Must implement \x27_predict()\x27") :=
  ⟨rfl, rfl⟩

/-- C7: for every input whose spatial dimensions are divisible by 8, the
encoder level k pre-pooling tensor and the decoder level k post-upsampling
tensor have identical spatial dimensions at each of the three channel-axis
concatenation points (k = 0, 1, 2). -/
theorem C7_skip_connection_shapes (x y z c n_labels : ℕ) (f lr : ℚ) (avail : Bool)
    (hx : 8 ∣ x) (hy : 8 ∣ y) (hz : 8 ∣ z) :
    ∃ m, unet_model_3d (x, y, z, c) f (2, 2, 2) n_labels lr false avail = .ok m ∧
      m.skipPairs.length = 3 ∧ ∀ p ∈ m.skipPairs, p.1 = p.2 := by
  refine ⟨_, unet_ok_of_div8 x y z c f n_labels lr avail hx hy hz, rfl, ?_⟩
  intro p hp
  simp only [List.mem_cons, List.not_mem_nil, or_false] at hp
  rcases hp with rfl | rfl | rfl <;> rfl

/-- Witness for C7 at `input_shape = (8, 16, 24, 2)`. -/
theorem C7_skip_connection_shapes_witness :
    (8 ∣ 8) ∧ (8 ∣ 16) ∧ (8 ∣ 24) ∧
    ∃ m, unet_model_3d (8, 16, 24, 2) 1 (2, 2, 2) 1 (1 / 100) false false = .ok m ∧
      m.skipPairs.length = 3 ∧ ∀ p ∈ m.skipPairs, p.1 = p.2 :=
  ⟨⟨1, rfl⟩, ⟨2, rfl⟩, ⟨3, rfl⟩,
    C7_skip_connection_shapes 8 16 24 2 1 1 (1 / 100) false ⟨1, rfl⟩ ⟨2, rfl⟩ ⟨3, rfl⟩⟩

/-- C8: `get_upconv` with `deconvolution = False` returns the parameter-free
`UpSampling3D(size=pool_size)` layer, whatever `depth`, `nb_filters`,
`image_shape`, `kernel_size`, `strides` or import availability are: the
result depends only on `pool_size`. -/
theorem C8_default_upsampling (pool_size : Shape3) (depth nb_filters : ℕ)
    (image_shape kernel_size strides : Shape3) (avail : Bool)
    (depth2 nb_filters2 : ℕ) (image_shape2 kernel_size2 strides2 : Shape3) (avail2 : Bool) :
    get_upconv depth nb_filters pool_size image_shape kernel_size strides false avail =
      .ok (.upSampling3D pool_size) ∧
    get_upconv depth nb_filters pool_size image_shape kernel_size strides false avail =
      get_upconv depth2 nb_filters2 pool_size image_shape2 kernel_size2 strides2 false avail2 :=
  ⟨rfl, rfl⟩

/-- C9: the no-argument `Simple3DModel` constructor calls the builder with
only `input_shape=DATA_SHAPE`, so `deconvolution` keeps its default `False`
and the `ImportError` branch of `get_upconv` is unreachable from
`Simple3DModel.__init__`, whatever the external `DATA_SHAPE` constant and
`keras_contrib` availability are. -/
theorem C9_init_never_import_error (DATA_SHAPE : Shape4) (avail : Bool) :
    Simple3DModel.init DATA_SHAPE avail =
      unet_model_3d DATA_SHAPE 1 (2, 2, 2) 1 (1 / 100) false avail ∧
    isImportError (Simple3DModel.init DATA_SHAPE avail) = false := by
  refine ⟨rfl, ?_⟩
  cases hres : unet_model_3d DATA_SHAPE 1 (2, 2, 2) 1 (1 / 100) false avail with
  | ok m =>
    have h2 : Simple3DModel.init DATA_SHAPE avail = .ok m := hres
    rw [h2]
    rfl
  | error e =>
    have he := unet_false_error_is_valueError _ _ _ _ _ _ _ hres
    subst he
    have h2 : Simple3DModel.init DATA_SHAPE avail =
        .error (.valueError "concatenate requires matching spatial dimensions") := hres
    rw [h2]
    rfl

/-- C10: for every `downsize_filters_factor` `f > 32`, the first encoder
convolution's filter count `int(32 / f)` is 0, and the builder performs no
validation rejecting the degenerate count: construction still succeeds. -/
theorem C10_zero_filters_not_rejected (f : ℚ) (lr : ℚ) (avail : Bool) (hf : 32 < f) :
    trunc_div 32 f = 0 ∧
    ∃ m, unet_model_3d (8, 8, 8, 1) f (2, 2, 2) 1 lr false avail = .ok m ∧
      m.convFilters.getD 0 0 = 0 := by
  have hf0 : (0 : ℚ) < f := lt_trans (by norm_num) hf
  have ht : trunc_div 32 f = 0 := by
    have h1 : (32 : ℚ) / f < 1 := (div_lt_one hf0).mpr hf
    have h0 : (0 : ℚ) ≤ 32 / f := by positivity
    have hfl : Int.floor ((32 : ℚ) / f) = 0 := by
      rw [Int.floor_eq_zero_iff]
      exact ⟨h0, h1⟩
    simp [trunc_div, hfl]
  refine ⟨ht, _, unet_ok_of_div8 8 8 8 1 f 1 lr avail ⟨1, rfl⟩ ⟨1, rfl⟩ ⟨1, rfl⟩, ?_⟩
  simp [ht]

/-- Witness for C10 at `f = 33`. -/
theorem C10_zero_filters_not_rejected_witness :
    (32 : ℚ) < 33 ∧ trunc_div 32 33 = 0 ∧
    ∃ m, unet_model_3d (8, 8, 8, 1) 33 (2, 2, 2) 1 (1 / 100) false true = .ok m ∧
      m.convFilters.getD 0 0 = 0 := by
  have h := C10_zero_filters_not_rejected 33 (1 / 100) true (by norm_num)
  exact ⟨by norm_num, h.1, h.2⟩
